import Mathlib

/-!
Verification of the riboSeed iterative seed-extension pipeline.

Shallow embedding of the core data model and operations of
`riboSeed/riboSeed.py` and `riboSeed/riboSnag.py`: the growth evaluator,
the per-region decision table, faux-genome reconstitution, the
mapped/unmapped read partition commands, the iteration loop, the region
catalog parser and the read-library constructor.  Filesystem facts
(file present and non-empty, sequence lengths) enter as explicit
parameters; `Option`/`Except` model `sys.exit` and Python exceptions.
-/

namespace RiboSeed

/-! ### GrowthEvaluator: `evaluate_spades_success` (riboSeed.py)

The function inspects `mapping_ob.assembled_contig` (presence and size,
abstracted as `contig_file_ok`), the length of the first record of the
assembled contig file (`contig_len`), and the length of the first record
of `mapping_ob.ref_fasta`, which is both `seed_len` and `ref_len` in the
source.  `target_len` is the Python float passed on the command line,
modelled as a rational; `Int.toNat ⌊·⌋` models Python `int(·)` on the
positive values reachable here.  The result `none` models `sys.exit(1)`
on an invalid target length. -/

/-- Computation of `target_seed_len` inside `evaluate_spades_success`:
fractional targets (`0 < target_len < 5`) scale the seed length, larger
values are absolute base-pair counts. -/
def target_seed_len_of (target_len : ℚ) (seed_len : ℕ) : ℕ :=
  if 0 < target_len ∧ target_len < 5 then Int.toNat ⌊target_len * (seed_len : ℚ)⌋
  else Int.toNat ⌊target_len⌋

/-- Embedding of `evaluate_spades_success`.  Returns `some code` with
`code ∈ {0,1,2,3}`, or `none` when the source calls `sys.exit(1)`
(invalid `target_len` while `proceed_to_target` is set). -/
def evaluate_spades_success (proceed_to_target : Bool) (target_len : ℚ)
    (include_short_contigs : Bool) (min_assembly_len min_delta iteration : ℕ)
    (contig_file_ok : Bool) (contig_len seed_len : ℕ) : Option ℕ :=
  if contig_file_ok = false then some 3 else
  match (if proceed_to_target then
           (if 0 < target_len ∧ target_len < 5 then
              some (Int.toNat ⌊target_len * (seed_len : ℚ)⌋)
            else if 50 < target_len then some (Int.toNat ⌊target_len⌋)
            else none)
         else some 0) with
  | none => none
  | some target_seed_len =>
    let ref_len := seed_len
    let contig_length_diff : ℤ := (contig_len : ℤ) - (ref_len : ℤ)
    if contig_len > ref_len * 3 then some 2
    else if min_assembly_len > contig_len then
      (if include_short_contigs then some 1 else some 2)
    else if proceed_to_target = true ∧ contig_len ≥ target_seed_len then some 1
    else if (min_delta : ℤ) > |contig_length_diff| ∧ iteration ≠ 0 then some 1
    else some 0

/-- The decision cascade exactly as claim C1 words it: missing or empty
output file gives 3; oversized contig (more than three times the seed)
gives 2; a contig below the minimum assembly length gives 2, or 1 when
short contigs are allowed; a configured target length that the contig
meets or exceeds gives 1; on a non-first iteration a length change below
the minimum delta gives 1; otherwise 0. -/
def growthEvaluatorClaimCode (file_ok : Bool) (contig_len seed_len : ℕ)
    (include_short : Bool) (min_assembly_len : ℕ) (target_configured : Bool)
    (target : ℕ) (iteration min_delta : ℕ) : ℕ :=
  if file_ok = false then 3
  else if seed_len * 3 < contig_len then 2
  else if contig_len < min_assembly_len then (if include_short then 1 else 2)
  else if target_configured = true ∧ target ≤ contig_len then 1
  else if iteration ≠ 0 ∧ |(contig_len : ℤ) - (seed_len : ℤ)| < (min_delta : ℤ) then 1
  else 0

/-! ### Decision-table consumer: `parse_subassembly_return_code` (riboSeed.py) -/

/-- The two control flags of a cluster together with whether the
surviving contig has been copied into `final_long_reads_dir`. -/
structure ClusterFlags where
  continue_iterating : Bool
  keep_contigs : Bool
  copied_to_final : Bool
deriving DecidableEq

/-- Embedding of `parse_subassembly_return_code`: given the stored
`assembly_success` code it rewrites the flags; code 1 first attempts the
copy of the last assembled contig into the final-contigs area and then
clears both flags (the source comment explains the contig has already
been copied, so `keep_contigs` is set to `False`).  An unknown code
raises `ValueError`. -/
def parse_subassembly_return_code (assembly_success : ℕ)
    (cluster : ClusterFlags) : Except String ClusterFlags :=
  if assembly_success = 3 then
    .ok { cluster with continue_iterating := false, keep_contigs := false }
  else if assembly_success = 2 then
    .ok { cluster with continue_iterating := false, keep_contigs := false }
  else if assembly_success = 1 then
    .ok { cluster with copied_to_final := true,
                       continue_iterating := false, keep_contigs := false }
  else if assembly_success = 0 then
    .ok { cluster with continue_iterating := true, keep_contigs := true }
  else .error "Error evaluating spades results return!"

/-! ### ReadLibrary: the `NgsLib` constructor (riboSeed.py)

`__init__` stores the arguments and then runs `check_mands`,
`set_libtype` and `get_readlen` in that order.  `check_mands` requires
`name`, `readF`, `readR` and `ref_fasta` to be non-`None`;
`set_libtype` classifies the present read files.  `measured_readlen`
abstracts `get_ave_read_len_from_fastq`, which is consulted only for a
master library. -/

/-- One read library; field order follows the `__init__` assignments. -/
structure NgsLib where
  name : Option String
  master : Bool
  libtype : String
  readF : Option String
  readR : Option String
  readS0 : Option String
  readlen : Option ℕ
  mapping_success : Bool
  ref_fasta : Option String
deriving DecidableEq

/-- Embedding of `NgsLib.check_mands`. -/
def NgsLib.check_mands (name readF readR ref_fasta : Option String) :
    Except String Unit :=
  if name = none ∨ readF = none ∨ readR = none ∨ ref_fasta = none then
    .error "SeedGenome must be instantiated with name, forward reads, reverse reads, and ref fasta"
  else .ok ()

/-- Embedding of `NgsLib.set_libtype`. -/
def NgsLib.set_libtype (readF readR readS0 : Option String) :
    Except String String :=
  match readF with
  | none =>
    match readR with
    | none =>
      match readS0 with
      | some _ => .ok "s_1"
      | none => .error "cannot set library type"
    | some _ => .error "cannot set library type from one PE read"
  | some _ => if readS0.isSome then .ok "pe_s" else .ok "pe"

/-- Embedding of `NgsLib.__init__`: check mandatory fields, derive the
library type, then (for a master library) measure the read length. -/
def mkNgsLib (name readF readR readS0 ref_fasta : Option String)
    (master : Bool) (readlen : Option ℕ) (measured_readlen : ℕ) :
    Except String NgsLib :=
  match NgsLib.check_mands name readF readR ref_fasta with
  | .error e => .error e
  | .ok _ =>
    match NgsLib.set_libtype readF readR readS0 with
    | .error e => .error e
    | .ok lt =>
      .ok { name := name, master := master, libtype := lt, readF := readF,
            readR := readR, readS0 := readS0,
            readlen := if master then some measured_readlen else readlen,
            mapping_success := false, ref_fasta := ref_fasta }

/-! ### Dynamic attributes of a freshly parsed `LociCluster` (riboSnag.py)

Python objects carry a dynamic attribute dictionary; reading an
attribute that was never assigned raises `AttributeError`.  The
embedding keeps the dictionary explicit so that reads of undefined
attributes are observable. -/

/-- A Python attribute value, as far as the embedding needs it. -/
inductive PyVal
  | pynone
  | pybool (b : Bool)
  | pynat (n : ℕ)
  | pystr (s : String)
  | pyobj
deriving DecidableEq

/-- Python `getattr`: `none` models `AttributeError`. -/
def getattr_opt (attrs : List (String × PyVal)) (name : String) :
    Option PyVal :=
  attrs.lookup name

/-- The attribute dictionary written by `LociCluster.__init__`
(riboSnag.py), in assignment order, for a freshly parsed cluster with
the default flags (`continue_iterating=True`, `keep_contig=True`). -/
def lociClusterInitAttrs (index : ℕ) (sequence_id : String) :
    List (String × PyVal) :=
  [("index", .pynat index),
   ("sequence_id", .pystr sequence_id),
   ("loci_list", .pyobj),
   ("global_start_coord", .pynone),
   ("global_end_coord", .pynone),
   ("padding", .pynone),
   ("feat_of_interest", .pynone),
   ("circular", .pybool false),
   ("cluster_dir_name", .pystr (sequence_id ++ "_cluster_" ++ toString index)),
   ("output_root", .pyobj),
   ("mappings", .pyobj),
   ("seq_record", .pynone),
   ("extractedSeqRecord", .pynone),
   ("keep_contig", .pybool true),
   ("continue_iterating", .pybool true),
   ("final_contig_path", .pynone)]

/-! ### PartitionStage: `make_unmapped_partition_cmds` (riboSeed.py)

The function returns a list of shell command strings that
`partition_mapping` runs in order through `subprocess.run`, with stdout
captured into a pipe and dropped.  The embedding keeps one constructor
per command and tracks the effect of each on the current iteration
claimed-identifier file `mapped_ids_txt` and on the `unmapped_sam`
artifact.  A SAM record line is modelled by its query name followed by
the remaining words of the line. -/

/-- One line of the whole-library mapped SAM file. -/
structure SamLine where
  qname : String
  rest : List String
deriving DecidableEq

/-- The words of a SAM record line; the query name is the first word. -/
def SamLine.words (l : SamLine) : List String := l.qname :: l.rest

/-- Effect of `LC_ALL=C grep -w -v -F -f ids`: keep exactly the lines in
which no identifier from `ids` occurs as a word. -/
def grep_w_v_F (ids : List String) (lines : List SamLine) : List SamLine :=
  lines.filter (fun l => ids.all (fun i => ! l.words.contains i))

/-- The commands emitted by `make_unmapped_partition_cmds`, abstracted
to their filesystem effect.  `catPrevIds` is
`cat prev_mapped_ids_txt > mapped_ids_txt`; `appendRegionIds` is
`samtools view sorted_bam region | cut -f1 >> mapped_ids_txt` with the
identifiers that the view prints for one region; `sortUIds` is
`sort -u mapped_ids_txt`; `grepUnmapped` is the exclusion filter from
`mapped_sam` into `unmapped_sam`. -/
inductive PartitionCmd
  | catPrevIds
  | makeMappedSam
  | appendRegionIds (ids : List String)
  | sortUIds
  | grepUnmapped
deriving DecidableEq

/-- Embedding of `make_unmapped_partition_cmds`: the command list in
source order — seed the identifier file from the previous iteration
when this is not iteration 0, convert the mapped BAM to SAM, append
each region's identifiers, run `sort -u`, then build the complement. -/
def make_unmapped_partition_cmds (iteration : ℕ)
    (region_ids : List (List String)) : List PartitionCmd :=
  (if iteration ≠ 0 then [PartitionCmd.catPrevIds] else []) ++
    [PartitionCmd.makeMappedSam] ++
    region_ids.map PartitionCmd.appendRegionIds ++
    [PartitionCmd.sortUIds, PartitionCmd.grepUnmapped]

/-- Contents of the two artifacts the commands write. -/
structure PartitionState where
  mapped_ids_txt : List String
  unmapped_sam : List SamLine
deriving DecidableEq

/-- Effect of one command on the artifacts.  `sort -u mapped_ids_txt`
has no `-o` flag and no shell redirection, and `partition_mapping`
captures its stdout into a subprocess pipe, so the identifier file is
left untouched by it. -/
def runPartitionCmd (prev_ids : List String) (mapped_sam : List SamLine)
    (st : PartitionState) : PartitionCmd → PartitionState
  | .catPrevIds => { st with mapped_ids_txt := prev_ids }
  | .makeMappedSam => st
  | .appendRegionIds ids =>
      { st with mapped_ids_txt := st.mapped_ids_txt ++ ids }
  | .sortUIds => st
  | .grepUnmapped =>
      { st with unmapped_sam := grep_w_v_F st.mapped_ids_txt mapped_sam }

/-- Run a command list in order, as `partition_mapping` does. -/
def runPartitionCmds (prev_ids : List String) (mapped_sam : List SamLine)
    (st : PartitionState) (cmds : List PartitionCmd) : PartitionState :=
  cmds.foldl (runPartitionCmd prev_ids mapped_sam) st

/-- The artifacts produced by one iteration's unmapped-partition phase:
the identifier file starts empty (it is created by the first append or
by the seeding `cat`). -/
def partitionResult (iteration : ℕ) (prev_ids : List String)
    (region_ids : List (List String)) (mapped_sam : List SamLine) :
    PartitionState :=
  runPartitionCmds prev_ids mapped_sam ⟨[], []⟩
    (make_unmapped_partition_cmds iteration region_ids)

/-- Closed form of the append phase. -/
theorem runPartitionCmds_appends (prev_ids : List String)
    (mapped_sam : List SamLine) (rs : List (List String)) :
    ∀ st : PartitionState,
      runPartitionCmds prev_ids mapped_sam st
          (rs.map PartitionCmd.appendRegionIds)
        = { st with mapped_ids_txt := st.mapped_ids_txt ++ rs.flatten } := by
  induction rs with
  | nil => intro st; simp [runPartitionCmds]
  | cons r rs ih =>
      intro st
      simp only [List.map_cons, runPartitionCmds, List.foldl_cons] at *
      rw [ih]
      simp [runPartitionCmd, List.append_assoc]

/-- Closed form of the whole phase: the identifier file ends up as the
previous iteration's list (when seeded) followed by each region's
identifiers in order, and the unmapped SAM is the exclusion filter
against exactly that list. -/
theorem partitionResult_eq (iteration : ℕ) (prev_ids : List String)
    (region_ids : List (List String)) (mapped_sam : List SamLine) :
    partitionResult iteration prev_ids region_ids mapped_sam
      = { mapped_ids_txt :=
            (if iteration ≠ 0 then prev_ids else []) ++ region_ids.flatten,
          unmapped_sam :=
            grep_w_v_F
              ((if iteration ≠ 0 then prev_ids else []) ++ region_ids.flatten)
              mapped_sam } := by
  unfold partitionResult make_unmapped_partition_cmds runPartitionCmds
  by_cases h : iteration ≠ 0 <;>
    simp only [h, if_true, if_false, ite_true, ite_false, List.append_assoc,
      List.foldl_append, List.foldl_cons, List.foldl_nil] <;>
    rw [show ∀ st, List.foldl (runPartitionCmd prev_ids mapped_sam) st
          (region_ids.map PartitionCmd.appendRegionIds)
        = { st with mapped_ids_txt := st.mapped_ids_txt ++ region_ids.flatten }
      from runPartitionCmds_appends prev_ids mapped_sam region_ids] <;>
    simp [runPartitionCmd, h]

/-! ### Master library handling in the main loop (riboSeed.py `__main__`)

At iteration 0 the loop sets `unmapped_ngsLib = seedGenome.master_ngs_ob`
(the master object itself) and the mapping stage mutates it; at every
later iteration the loop reassigns `master_ngs_ob.ref_fasta` to the new
reference and derives a fresh, separate `NgsLib` from the unmapped
reads via `convert_bam_to_fastqs_cmd`. -/

/-- Embedding of `nonify_empty_lib_files`: each read file that is
missing or empty on disk is set to `None`; `okF`, `okR`, `okS` say
whether the respective file exists and is non-empty. -/
def nonify_empty_lib_files (okF okR okS : Bool) (lib : NgsLib) : NgsLib :=
  { lib with readF := if okF then lib.readF else none,
             readR := if okR then lib.readR else none,
             readS0 := if okS then lib.readS0 else none }

/-- Mutations that `map_to_genome_ref_bwa` / `map_to_genome_ref_smalt`
perform on the `ngsLib` argument when the command chain succeeds:
`nonify_empty_lib_files` first, then `readS0` is cleared unless a
singleton library is present and not ignored, and finally
`mapping_success` is set. -/
def map_to_genome_ref_effect (ignore_singletons okF okR okS : Bool)
    (lib : NgsLib) : NgsLib :=
  let l1 := nonify_empty_lib_files okF okR okS lib
  let l2 := if l1.readS0 ≠ none ∧ ignore_singletons = false then l1
            else { l1 with readS0 := none }
  { l2 with mapping_success := true }

/-- The statements of one main-loop pass that touch `master_ngs_ob`:
iteration 0 maps with the master object itself, so the master receives
the mapping-stage mutations; every later iteration executes
`seedGenome.master_ngs_ob.ref_fasta = seedGenome.next_reference_path`
while mapping runs on the separate unmapped library. -/
def master_after_pass (iteration : ℕ) (next_reference_path : Option String)
    (ignore_singletons okF okR okS : Bool) (master : NgsLib) : NgsLib :=
  if iteration = 0 then
    map_to_genome_ref_effect ignore_singletons okF okR okS master
  else { master with ref_fasta := next_reference_path }

/-- A concrete run-level master library, as built from user-supplied
reads against the written-out reference fasta. -/
def exampleMaster : NgsLib :=
  { name := some "master", master := true, libtype := "pe",
    readF := some "reads1.fastq", readR := some "reads2.fastq",
    readS0 := none, readlen := some 300, mapping_success := false,
    ref_fasta := some "genome.fasta" }

/-! ### RegionCatalog: `parse_clustered_loci_file` and
`extract_coords_from_locus` (riboSnag.py)

Python string primitives do not reduce well in the kernel, so the line
machinery is embedded over `List Char`: `splitOnChar` is `str.split`
with a one-character separator (keeping empty fields), `charsTrim` is
`str.strip()`, `charsHasPrefixB` is `str.startswith`, and
`upToFirstSeq`/`afterFirstSeq` give field 1 of `str.split` with a
multi-character separator.  `pyInStr` is the Python substring test
`needle in hay`. -/

/-- Whether `needle` starts the list `hay`. -/
def charsHasPrefixB : List Char → List Char → Bool
  | [], _ => true
  | _ :: _, [] => false
  | a :: as, b :: bs => a == b && charsHasPrefixB as bs

/-- Whether `needle` occurs contiguously anywhere in `hay`. -/
def charsContainsB (needle : List Char) : List Char → Bool
  | [] => charsHasPrefixB needle []
  | b :: bs => charsHasPrefixB needle (b :: bs) || charsContainsB needle bs

/-- Python `needle in hay` on strings. -/
def pyInStr (needle hay : String) : Bool :=
  charsContainsB needle.toList hay.toList

/-- Whitespace for `str.strip()`. -/
def isPySpace (c : Char) : Bool :=
  (c == ' ') || (c == '\t') || (c == '\n') || (c == '\r')

/-- Python `str.strip()`. -/
def charsTrim (l : List Char) : List Char :=
  ((l.dropWhile isPySpace).reverse.dropWhile isPySpace).reverse

/-- Python `str.split(sep)` for a single-character separator, keeping
empty fields. -/
def splitOnChar (sep : Char) : List Char → List (List Char)
  | [] => [[]]
  | c :: rest =>
    let r := splitOnChar sep rest
    if c == sep then [] :: r
    else (c :: r.headD []) :: r.tail

/-- The characters before the first occurrence of `sep`. -/
def upToFirstSeq (sep : List Char) : List Char → List Char
  | [] => []
  | c :: rest =>
    if charsHasPrefixB sep (c :: rest) then []
    else c :: upToFirstSeq sep rest

/-- The characters after the first occurrence of `sep`, or `none` when
`sep` does not occur. -/
def afterFirstSeq (sep : List Char) : List Char → Option (List Char)
  | [] => none
  | c :: rest =>
    if charsHasPrefixB sep (c :: rest) then some (List.drop sep.length (c :: rest))
    else afterFirstSeq sep rest

/-- One annotated locus as the catalog parser builds it. -/
structure PyLocus where
  index : ℕ
  locus_tag : String
  sequence_id : String
  start_coord : Option ℕ
  end_coord : Option ℕ
  strand : Option ℤ
  product : Option String
deriving DecidableEq

/-- One cluster (Region) as the catalog parser builds it. -/
structure PyCluster where
  index : ℕ
  sequence_id : String
  loci_list : List PyLocus
  feat_of_interest : Option String
deriving DecidableEq

/-- Embedding of the per-line body of the parse loop in
`parse_clustered_loci_file`: a `#$ FEATURE` line records the marker, a
comment or blank line is skipped, and any other line must carry a
sequence identifier and a colon-separated locus-tag field. -/
def parse_loci_line (st : Option String × List PyCluster × ℕ)
    (line : List Char) :
    Except String (Option String × List PyCluster × ℕ) :=
  let (feature, clusters, cluster_index) := st
  if charsHasPrefixB "#$ FEATURE".toList line then
    match afterFirstSeq "FEATURE".toList line with
    | none => .error "Cannot extract FEATURE"
    | some suffix =>
        .ok (some (String.mk (charsTrim (upToFirstSeq "FEATURE".toList suffix))),
             clusters, cluster_index)
  else if charsHasPrefixB "#".toList line || (charsTrim line).isEmpty then
    .ok (feature, clusters, cluster_index)
  else
    let tokens := splitOnChar ' ' line
    match tokens[1]? with
    | none => .error ("error parsing line: " ++ String.mk line)
    | some t1 =>
        let seqname := String.mk (tokens.headD [])
        let lt_list := (splitOnChar ':' t1).map String.mk
        let loci := lt_list.enum.map (fun p =>
          ({ index := p.1, locus_tag := p.2, sequence_id := seqname,
             start_coord := none, end_coord := none, strand := none,
             product := none } : PyLocus))
        .ok (feature, clusters ++
               [{ index := cluster_index, sequence_id := seqname,
                  loci_list := loci, feat_of_interest := none }],
             cluster_index + 1)

/-- Embedding of `parse_clustered_loci_file`.  `file_nonempty` abstracts
the isfile-and-nonzero-size check; `gb_ids` are the record identifiers
available in the genbank index (`SeqIO.index`; a cluster whose sequence
identifier is absent raises `KeyError`). -/
def parse_clustered_loci_file (file_nonempty : Bool)
    (lines : List (List Char)) (gb_ids : List String) :
    Except String (List PyCluster) :=
  if file_nonempty = false then .error "Cluster File not found!"
  else
    match lines.foldlM parse_loci_line (none, [], 0) with
    | .error e => .error e
    | .ok (feature, clusters, _) =>
      match feature with
      | none => .error "no feature extracted from coords file!"
      | some feat =>
        if clusters.isEmpty then .error "No Clusters Found!!"
        else if clusters.all (fun c => gb_ids.contains c.sequence_id) then
          .ok (clusters.map (fun c => { c with feat_of_interest := some feat }))
        else .error "KeyError: sequence id not in genbank index"

/-- One genbank feature as `extract_coords_from_locus` reads it:
feature type, optional `locus_tag` qualifier, 0-based location, strand
and optional `product` qualifier. -/
structure GBFeature where
  ftype : String
  locus_tag : Option String
  location_start : ℕ
  location_end : ℕ
  strand : ℤ
  product : Option String
deriving DecidableEq

/-- Update the first locus carrying `tag`, as the `next(...)` lookup
followed by attribute mutation does. -/
def updateFirstLocus (tag : String) (f : PyLocus → PyLocus) :
    List PyLocus → List PyLocus
  | [] => []
  | l :: rest =>
    if l.locus_tag = tag then f l :: rest
    else l :: updateFirstLocus tag f rest

/-- The feature loop of `extract_coords_from_locus`: features whose
type is not a substring of the filter are skipped; a matching feature
without a `locus_tag` qualifier raises; a feature whose tag belongs to
the cluster fills in the first matching locus (1-based start) and bumps
the hit counter. -/
def extract_coords_go (feature : String) (tags : List String) :
    List GBFeature → List PyLocus → ℕ → Except String (List PyLocus × ℕ)
  | [], loci, n => .ok (loci, n)
  | feat :: rest, loci, n =>
    if pyInStr feat.ftype feature = false then
      extract_coords_go feature tags rest loci n
    else
      match feat.locus_tag with
      | none => .error "found a feature, but there is no locus tag associated with it!"
      | some tag =>
        if tags.contains tag then
          extract_coords_go feature tags rest
            (updateFirstLocus tag (fun l =>
              { l with start_coord := some (feat.location_start + 1),
                       end_coord := some feat.location_end,
                       strand := some feat.strand,
                       product := feat.product }) loci) (n + 1)
        else extract_coords_go feature tags rest loci n

/-- Embedding of `extract_coords_from_locus`: run the feature loop and
fail when no feature matched any of the cluster's locus tags. -/
def extract_coords_from_locus (cluster : PyCluster) (feature : String)
    (features : List GBFeature) : Except String PyCluster :=
  match extract_coords_go feature (cluster.loci_list.map (fun l => l.locus_tag))
      features cluster.loci_list 0 with
  | .error e => .error e
  | .ok (loci2, n) =>
    if n = 0 then .error "no hits found in any record with feature"
    else .ok { cluster with loci_list := loci2 }

/-! ### GenomeReconstitution: `make_faux_genome` (riboSeed.py)

The loop walks the cluster list; each surviving cluster (both flags
set) records `global_start_coord = len(faux_genome) + nbuff` before its
contig is appended behind an N-buffer, and `global_end_coord` as the
length afterwards; the final record gets one more trailing N-buffer.
Skipped clusters are left untouched.  `prepare_next_mapping` then, on a
later iteration, extracts `seq_record.seq[start:end]` (a Python slice)
as the next seed, and raises `ValueError` when the coordinates were not
set previously. -/

/-- The per-cluster state that `make_faux_genome` reads and writes. -/
structure FauxCluster where
  keep_contigs : Bool
  continue_iterating : Bool
  contig : List Char
  global_start_coord : Option ℕ
  global_end_coord : Option ℕ
  sequence_id : String
deriving DecidableEq

/-- The concatenation loop of `make_faux_genome`: `g` is the faux
genome built so far, `cnt` the combined-record counter; returns the
updated clusters, the concatenated genome (without the trailing
buffer), and the counter. -/
def make_faux_genome_go (nbuff : ℕ) (new_seq_name : String) :
    List Char → ℕ → List FauxCluster → List FauxCluster × List Char × ℕ
  | g, cnt, [] => ([], g, cnt)
  | g, cnt, clu :: rest =>
    if clu.keep_contigs = false ∨ clu.continue_iterating = false then
      let r := make_faux_genome_go nbuff new_seq_name g cnt rest
      (clu :: r.1, r.2)
    else
      let s := g.length + nbuff
      let gnew := g ++ (List.replicate nbuff 'N' ++ clu.contig)
      let clu2 := { clu with global_start_coord := some s,
                             global_end_coord := some gnew.length,
                             sequence_id := new_seq_name }
      let r := make_faux_genome_go nbuff new_seq_name gnew (cnt + 1) rest
      (clu2 :: r.1, r.2)

/-- Embedding of `make_faux_genome`: `none` models the sentinel return
value 1 (empty cluster list, or no viable contig); otherwise the
updated clusters and the buffered genome written to disk. -/
def make_faux_genome (cluster_list : List FauxCluster)
    (new_seq_name : String) (nbuff : ℕ) :
    Option (List FauxCluster × List Char) :=
  if cluster_list.length = 0 then none
  else
    let r := make_faux_genome_go nbuff new_seq_name [] 0 cluster_list
    if r.2.2 = 0 then none
    else some (r.1, r.2.1 ++ List.replicate nbuff 'N')

/-- The seed extraction of `prepare_next_mapping` once the coordinates
come from a previous `make_faux_genome` pass: unset coordinates raise
`ValueError` (the source checks `this_iteration != 0`); otherwise the
extracted seed is the Python slice `seq[start:end]` of the current
genome. -/
def prepare_next_mapping_extract (genome : List Char)
    (start stop : Option ℕ) : Except String (List Char) :=
  match start, stop with
  | some s, some e => .ok ((genome.drop s).take (e - s))
  | _, _ => .error "global start and end should be defined previously! Exiting"

/-- A Python slice strictly inside the left part of an appended list
ignores the right part. -/
theorem slice_append_of_le (l t : List Char) (s k : ℕ)
    (h : s + k ≤ l.length) :
    ((l ++ t).drop s).take k = (l.drop s).take k := by
  rw [List.drop_append_eq_append_drop]
  rw [show s - l.length = 0 by omega, List.drop_zero]
  rw [List.take_append_eq_append_take]
  rw [show k - (l.drop s).length = 0 by
        rw [List.length_drop]; omega]
  simp

/-- A cluster naming two locus tags, of which only `tagA` exists in the
annotation below. -/
def exampleClusterAB : PyCluster :=
  { index := 0, sequence_id := "chrom1",
    loci_list :=
      [{ index := 0, locus_tag := "tagA", sequence_id := "chrom1",
         start_coord := none, end_coord := none, strand := none,
         product := none },
       { index := 1, locus_tag := "tagB", sequence_id := "chrom1",
         start_coord := none, end_coord := none, strand := none,
         product := none }],
    feat_of_interest := some "rRNA" }

/-- The only feature of the example annotation: it carries `tagA`. -/
def exampleFeatA : GBFeature :=
  { ftype := "rRNA", locus_tag := some "tagA", location_start := 999,
    location_end := 2000, strand := 1, product := some "16S ribosomal RNA" }

/-! ### IterationController: the main while-loop (riboSeed.py `__main__`)

`while seedGenome.this_iteration <= args.iterations`: each pass selects
the clusters with both flags set, exits fatally when none is selected,
evaluates each selected cluster (its code consumed by
`parse_subassembly_return_code`), recomputes the selection, and either
advances `this_iteration` by one (building the next faux genome) or,
when the recomputed selection is empty, sets `this_iteration` to
`args.iterations + 1` before the unconditional increment, so the loop
condition fails on the next check.  The oracle `codes it i` supplies
the `assembly_success` code assigned at pass `it` to the cluster at
position `i` (the growth evaluator and the external tools stand behind
it).  `fuel` bounds the number of passes only so that the recursion is
structural; exhausting it yields the distinguished `outOfFuel`. -/

/-- The outcome of the loop: the fatal "No clusters had sufficient
mapping" exit, normal exit towards finalization (with the final value
of `this_iteration`), a `ValueError` from an unknown code, or fuel
exhaustion. -/
inductive LoopOutcome
  | fatalNoActive (iteration : ℕ)
  | finalizing (iteration : ℕ)
  | valueError
  | outOfFuel
deriving DecidableEq

/-- The `clusters_to_process` selection predicate. -/
def isActive (c : ClusterFlags) : Bool :=
  c.continue_iterating && c.keep_contigs

/-- The evaluation loop of one pass: every selected cluster (both flags
set) receives its code and is updated by
`parse_subassembly_return_code`; the others are untouched. -/
def eval_pass (codes : ℕ → ℕ → ℕ) (it : ℕ) :
    ℕ → List ClusterFlags → Except String (List ClusterFlags)
  | _, [] => .ok []
  | i, c :: rest =>
    match (if isActive c then parse_subassembly_return_code (codes it i) c
           else .ok c) with
    | .error e => .error e
    | .ok c2 =>
      match eval_pass codes it (i + 1) rest with
      | .error e => .error e
      | .ok rest2 => .ok (c2 :: rest2)

/-- Embedding of the main while-loop with iteration cap `K`
(`args.iterations`). -/
def iteration_loop (codes : ℕ → ℕ → ℕ) (K : ℕ) :
    ℕ → ℕ → List ClusterFlags → LoopOutcome
  | 0, it, _ => if it ≤ K then .outOfFuel else .finalizing it
  | fuel + 1, it, clusters =>
    if it ≤ K then
      if (clusters.filter isActive).length = 0 then .fatalNoActive it
      else
        match eval_pass codes it 0 clusters with
        | .error _ => .valueError
        | .ok clusters2 =>
          if (clusters2.filter isActive).length ≠ 0 then
            iteration_loop codes K fuel (it + 1) clusters2
          else
            iteration_loop codes K fuel (K + 1 + 1) clusters2
    else .finalizing it

end RiboSeed

namespace RiboSeed

/-- C1: the growth evaluator returns exactly one of the codes 0-3,
following the claimed threshold order (missing file, oversized, too
short, target reached, minimal delta, healthy); whenever the configured
target length is valid the source function agrees everywhere with the
cascade stated by the claim. -/
theorem C1_evaluate_spades_success_cascade
    (proceed_to_target include_short_contigs contig_file_ok : Bool)
    (target_len : ℚ) (min_assembly_len min_delta iteration contig_len seed_len : ℕ)
    (hvalid : proceed_to_target = true →
      (0 < target_len ∧ target_len < 5) ∨ 50 < target_len) :
    evaluate_spades_success proceed_to_target target_len include_short_contigs
        min_assembly_len min_delta iteration contig_file_ok contig_len seed_len
      = some (growthEvaluatorClaimCode contig_file_ok contig_len seed_len
          include_short_contigs min_assembly_len proceed_to_target
          (target_seed_len_of target_len seed_len) iteration min_delta) := by
  unfold evaluate_spades_success growthEvaluatorClaimCode target_seed_len_of
  cases proceed_to_target with
  | false =>
      simp only [Bool.false_eq_true, if_false, false_and]
      split_ifs <;> simp_all
  | true =>
      rcases hvalid rfl with hfrac | habs
      · simp only [hfrac, if_true, true_and]
        split_ifs <;> simp_all
      · have hnotfrac : ¬ (0 < target_len ∧ target_len < 5) := by
          intro h
          exact absurd habs (by linarith [h.2])
        simp only [hnotfrac, if_false, habs, if_true, true_and]
        split_ifs <;> simp_all

/-- C1 witness: the claimed scenario, minimum assembly length 6000,
contig length 5990, short contigs not allowed, yields code 2. -/
theorem C1_evaluate_spades_success_cascade_witness :
    evaluate_spades_success false 0 false 6000 10 0 true 5990 5000 = some 2 :=
  (C1_evaluate_spades_success_cascade false false true 0 6000 10 0 5990 5000
    (by simp)).trans (by decide)

/-- C2 counterexample: on a freshly healthy cluster, code 1 leaves
`keep_contigs = false` (after attempting the copy), not `true` as the
claim states. -/
theorem C2_code1_keeps_contig_false :
    ¬ ((parse_subassembly_return_code 1 ⟨true, true, false⟩).toOption.map
        ClusterFlags.keep_contigs = some true) := by
  decide

/-- C2 amended: the decision table as the code implements it: code 0
sets both flags true; code 1 attempts the one-time copy into the
final-contigs area and then sets both flags false; codes 2 and 3 set
both flags false without copying. -/
theorem C2_parse_subassembly_return_code_table (c : ClusterFlags) :
    parse_subassembly_return_code 0 c
        = .ok { c with continue_iterating := true, keep_contigs := true } ∧
    parse_subassembly_return_code 1 c
        = .ok { c with copied_to_final := true,
                       continue_iterating := false, keep_contigs := false } ∧
    parse_subassembly_return_code 2 c
        = .ok { c with continue_iterating := false, keep_contigs := false } ∧
    parse_subassembly_return_code 3 c
        = .ok { c with continue_iterating := false, keep_contigs := false } := by
  refine ⟨rfl, rfl, rfl, rfl⟩

/-- C10: constructing an `NgsLib` succeeds only when name, forward
reads, reverse reads and reference fasta are all provided; every
successfully constructed library therefore has libtype `pe` or `pe_s`,
and the singleton-only classification `s_1` is unreachable through the
constructor. -/
theorem C10_ngslib_constructor (name readF readR readS0 ref_fasta : Option String)
    (master : Bool) (readlen : Option ℕ) (measured_readlen : ℕ) :
    ((name = none ∨ readF = none ∨ readR = none ∨ ref_fasta = none) →
      ∃ e, mkNgsLib name readF readR readS0 ref_fasta master readlen
              measured_readlen = .error e) ∧
    (∀ lib, mkNgsLib name readF readR readS0 ref_fasta master readlen
              measured_readlen = .ok lib →
      lib.libtype = "pe" ∨ lib.libtype = "pe_s") := by
  constructor
  · intro h
    refine ⟨"SeedGenome must be instantiated with name, forward reads, reverse reads, and ref fasta", ?_⟩
    simp only [mkNgsLib, NgsLib.check_mands, if_pos h]
  · intro lib hok
    by_cases hmand : name = none ∨ readF = none ∨ readR = none ∨ ref_fasta = none
    · simp only [mkNgsLib, NgsLib.check_mands, if_pos hmand] at hok
      cases hok
    · simp only [mkNgsLib, NgsLib.check_mands, if_neg hmand] at hok
      push_neg at hmand
      obtain ⟨f, hf⟩ := Option.ne_none_iff_exists.mp hmand.2.1
      rw [← hf] at hok
      cases hS : readS0 with
      | none =>
          rw [hS] at hok
          simp only [NgsLib.set_libtype, Option.isSome_none, Bool.false_eq_true,
            if_false] at hok
          cases hok
          left
          rfl
      | some s =>
          rw [hS] at hok
          simp only [NgsLib.set_libtype, Option.isSome_some, if_true] at hok
          cases hok
          right
          rfl

/-- C10 witness: a singleton-only library (no forward or reverse file)
is rejected by the constructor. -/
theorem C10_ngslib_constructor_witness :
    ∃ e, mkNgsLib (some "unmapped") none none (some "s.fastq") (some "ref.fasta")
          false none 100 = .error e :=
  (C10_ngslib_constructor (some "unmapped") none none (some "s.fastq")
    (some "ref.fasta") false none 100).1 (Or.inr (Or.inl rfl))

/-- C7: a freshly parsed cluster carries `continue_iterating = True` and
`keep_contig = True`, but the attribute `keep_contigs` that the
active-set filter in riboSeed.py reads does not exist on it, so the
first pass of the selection raises `AttributeError` instead of reading
the flags. -/
theorem C7_active_set_attribute_error (index : ℕ) (sequence_id : String) :
    getattr_opt (lociClusterInitAttrs index sequence_id) "continue_iterating"
        = some (.pybool true) ∧
    getattr_opt (lociClusterInitAttrs index sequence_id) "keep_contig"
        = some (.pybool true) ∧
    getattr_opt (lociClusterInitAttrs index sequence_id) "keep_contigs"
        = none := by
  refine ⟨rfl, rfl, rfl⟩

/-- C4: at a concrete input where iteration 1 sees the identifier `r1`
from the previous iteration and one region claiming `r2` and `r1`, the
`mapped_ids_txt` artifact ends up holding `r1, r2, r1`: the seeding and
accumulation happen as claimed, but because `sort -u` is run without
`-o` and with its stdout captured into a subprocess pipe, the file is
not de-duplicated (hence not a sorted, de-duplicated list). -/
theorem C4_mapped_ids_not_deduplicated :
    (partitionResult 1 ["r1"] [["r2", "r1"]] []).mapped_ids_txt
        = ["r1", "r2", "r1"] ∧
    ∀ l : List String, l.Nodup →
      (partitionResult 1 ["r1"] [["r2", "r1"]] []).mapped_ids_txt ≠ l := by
  refine ⟨rfl, ?_⟩
  intro l hl h
  rw [show (partitionResult 1 ["r1"] [["r2", "r1"]] []).mapped_ids_txt
        = ["r1", "r2", "r1"] from rfl] at h
  rw [← h] at hl
  exact absurd hl (by decide)

/-- C5: the unmapped partition is disjoint by read identifier from every
region's mapped partition of the same iteration: any line surviving the
exclusion filter has a query name not claimed by any region. -/
theorem C5_unmapped_disjoint_from_claimed (iteration : ℕ)
    (prev_ids : List String) (region_ids : List (List String))
    (mapped_sam : List SamLine) (l : SamLine)
    (hl : l ∈ (partitionResult iteration prev_ids region_ids
                  mapped_sam).unmapped_sam)
    (ids : List String) (hids : ids ∈ region_ids) :
    l.qname ∉ ids := by
  intro hq
  rw [partitionResult_eq] at hl
  simp only [grep_w_v_F, List.mem_filter] at hl
  have hall := hl.2
  rw [List.all_eq_true] at hall
  have hmem : l.qname ∈ (if iteration ≠ 0 then prev_ids else [])
      ++ region_ids.flatten := by
    refine List.mem_append_right _ ?_
    exact List.mem_flatten.mpr ⟨ids, hids, hq⟩
  have hc := hall l.qname hmem
  rw [Bool.not_eq_true'] at hc
  have : l.qname ∈ l.words := by simp [SamLine.words]
  rw [← List.elem_iff] at this
  exact absurd hc (by simp [List.elem_iff] at *; exact this)

/-- C5 witness: with one region claiming `r1` and a library containing a
read `r2`, the surviving unmapped record's query name is not claimed. -/
theorem C5_unmapped_disjoint_from_claimed_witness :
    SamLine.qname ⟨"r2", ["0", "seq"]⟩ ∉ ["r1"] :=
  C5_unmapped_disjoint_from_claimed 0 [] [["r1"]]
    [⟨"r2", ["0", "seq"]⟩] ⟨"r2", ["0", "seq"]⟩ (by decide) ["r1"] (by decide)

/-- C8 counterexample: the master library is mutated after
construction: a pass at iteration 1 reassigns its reference-fasta path
to the faux genome, and the iteration-0 pass, which maps with the
master object itself, flips its mapping-success flag. -/
theorem C8_master_library_mutated :
    (master_after_pass 1 (some "iter_0_buffered_genome.fasta") false true
        true true exampleMaster).ref_fasta ≠ exampleMaster.ref_fasta ∧
    (master_after_pass 0 none false true true true
        exampleMaster).mapping_success ≠ exampleMaster.mapping_success := by
  refine ⟨by decide, by decide⟩

/-- C8 amended: the master's identity fields (name, forward and reverse
read paths when their files are non-empty, library type, read length,
master flag) survive every pass unchanged, but `ref_fasta` is
reassigned to the next reference on every pass after iteration 0, and
the iteration-0 pass (where the master object itself is the unmapped
library) sets `mapping_success` and may clear `readS0`; only from
iteration 1 on is the unmapped library a separate object. -/
theorem C8_master_library_frame (iteration : ℕ)
    (next_reference_path : Option String) (ign okS : Bool) (m : NgsLib) :
    ((master_after_pass iteration next_reference_path ign true true okS m).name
        = m.name ∧
     (master_after_pass iteration next_reference_path ign true true okS m).readF
        = m.readF ∧
     (master_after_pass iteration next_reference_path ign true true okS m).readR
        = m.readR ∧
     (master_after_pass iteration next_reference_path ign true true okS m).libtype
        = m.libtype ∧
     (master_after_pass iteration next_reference_path ign true true okS m).readlen
        = m.readlen) ∧
    (iteration ≠ 0 →
      master_after_pass iteration next_reference_path ign true true okS m
        = { m with ref_fasta := next_reference_path }) ∧
    (iteration = 0 →
      (master_after_pass iteration next_reference_path ign true true okS
          m).mapping_success = true ∧
      (master_after_pass iteration next_reference_path ign true true okS
          m).ref_fasta = m.ref_fasta) := by
  unfold master_after_pass map_to_genome_ref_effect nonify_empty_lib_files
  by_cases h : iteration = 0 <;> simp only [h, if_true, if_false, ite_true,
    ite_false, if_neg, reduceIte] <;> first
    | (refine ⟨⟨?_, ?_, ?_, ?_, ?_⟩, ?_, ?_⟩ <;> split_ifs <;> simp)
    | simp [h]

/-- C8 witness: at iteration 1 the pass rewrites exactly the reference
path of the master library. -/
theorem C8_master_library_frame_witness :
    master_after_pass 1 (some "iter_0_buffered_genome.fasta") false true true
        false exampleMaster
      = { exampleMaster with
            ref_fasta := some "iter_0_buffered_genome.fasta" } :=
  (C8_master_library_frame 1 (some "iter_0_buffered_genome.fasta") false
    false exampleMaster).2.1 (by decide)

/-- The result of coordinate extraction on the example cluster: `tagA`
is filled in (1-based start), `tagB` is untouched, and no error is
raised even though `tagB` is absent from the annotation. -/
def exampleClusterABresolved : PyCluster :=
  { index := 0, sequence_id := "chrom1",
    loci_list :=
      [{ index := 0, locus_tag := "tagA", sequence_id := "chrom1",
         start_coord := some 1000, end_coord := some 2000,
         strand := some 1, product := some "16S ribosomal RNA" },
       { index := 1, locus_tag := "tagB", sequence_id := "chrom1",
         start_coord := none, end_coord := none, strand := none,
         product := none }],
    feat_of_interest := some "rRNA" }

/-- C9 counterexample: a locus tag named in the cluster file (`tagB`)
is absent from the reference annotation, yet coordinate extraction
succeeds (because another tag of the same Region was found), leaving
the absent tag's locus with unset coordinates instead of failing. -/
theorem C9_absent_tag_not_rejected :
    extract_coords_from_locus exampleClusterAB "rRNA" [exampleFeatA]
        = .ok exampleClusterABresolved ∧
    "tagB" ∈ exampleClusterAB.loci_list.map PyLocus.locus_tag ∧
    (∀ f ∈ [exampleFeatA], f.locus_tag ≠ some "tagB") := by
  refine ⟨by rfl, by decide, by decide⟩

/-- The feature loop never errors and never counts a hit when no
matching feature carries one of the cluster's tags: it either skips
everything or stops on a missing locus-tag qualifier. -/
theorem extract_coords_go_no_hits (feature : String) (tags : List String) :
    ∀ (features : List GBFeature) (loci : List PyLocus) (n : ℕ),
      (∀ f ∈ features, pyInStr f.ftype feature = true →
        ∀ tag, f.locus_tag = some tag → tag ∉ tags) →
      extract_coords_go feature tags features loci n = .ok (loci, n) ∨
      ∃ e, extract_coords_go feature tags features loci n = .error e := by
  intro features
  induction features with
  | nil => intro loci n h; left; rfl
  | cons f rest ih =>
      intro loci n h
      have hrest : ∀ g ∈ rest, pyInStr g.ftype feature = true →
          ∀ tag, g.locus_tag = some tag → tag ∉ tags :=
        fun g hg => h g (List.mem_cons_of_mem f hg)
      by_cases hty : pyInStr f.ftype feature = false
      · have heq : extract_coords_go feature tags (f :: rest) loci n
            = extract_coords_go feature tags rest loci n := by
          simp only [extract_coords_go, hty]
          simp
        rw [heq]
        exact ih loci n hrest
      · have hty2 : pyInStr f.ftype feature = true := by
          cases hb : pyInStr f.ftype feature
          · exact absurd hb hty
          · rfl
        cases hlt : f.locus_tag with
        | none =>
            right
            refine ⟨"found a feature, but there is no locus tag associated with it!", ?_⟩
            simp only [extract_coords_go, hty2, hlt]
            simp
        | some tag =>
            have hnot : tag ∉ tags :=
              h f (List.mem_cons_self f rest) hty2 tag hlt
            have hc : tags.contains tag = false := by simpa using hnot
            have heq : extract_coords_go feature tags (f :: rest) loci n
                = extract_coords_go feature tags rest loci n := by
              simp only [extract_coords_go, hty2, hlt, hc]
              simp
            rw [heq]
            exact ih loci n hrest

/-- C9 amended: catalog parsing fails on an empty cluster file, on a
malformed Region line (no locus-tag field), when no feature-type marker
is present, and when no Region was parsed; coordinate extraction fails
for a Region none of whose locus tags occurs on any matching feature of
the annotation.  A single absent locus tag alone is not rejected. -/
theorem C9_region_catalog_error_cases :
    (∀ lines gb_ids, parse_clustered_loci_file false lines gb_ids
        = .error "Cluster File not found!") ∧
    (∀ st line, charsHasPrefixB "#$ FEATURE".toList line = false →
        charsHasPrefixB "#".toList line = false →
        (charsTrim line).isEmpty = false →
        (splitOnChar ' ' line)[1]? = none →
        parse_loci_line st line
          = .error ("error parsing line: " ++ String.mk line)) ∧
    (∀ lines gb_ids clusters idx,
        lines.foldlM parse_loci_line (none, [], 0) = .ok (none, clusters, idx) →
        parse_clustered_loci_file true lines gb_ids
          = .error "no feature extracted from coords file!") ∧
    (∀ lines gb_ids feat idx,
        lines.foldlM parse_loci_line (none, [], 0)
            = .ok (some feat, [], idx) →
        parse_clustered_loci_file true lines gb_ids
          = .error "No Clusters Found!!") ∧
    (∀ (cluster : PyCluster) (feature : String) (features : List GBFeature),
        (∀ f ∈ features, pyInStr f.ftype feature = true →
          ∀ tag, f.locus_tag = some tag →
            tag ∉ cluster.loci_list.map PyLocus.locus_tag) →
        ∃ e, extract_coords_from_locus cluster feature features
          = .error e) := by
  refine ⟨?_, ?_, ?_, ?_, ?_⟩
  · intro lines gb_ids
    rfl
  · intro st line h1 h2 h3 h4
    obtain ⟨feature, clusters, cluster_index⟩ := st
    unfold parse_loci_line
    rw [h1, h2, h3]
    simp [h4]
  · intro lines gb_ids clusters idx h
    simp [parse_clustered_loci_file, h]
  · intro lines gb_ids feat idx h
    simp [parse_clustered_loci_file, h]
  · intro cluster feature features h
    rcases extract_coords_go_no_hits feature
        (cluster.loci_list.map (fun l => l.locus_tag)) features
        cluster.loci_list 0 (by simpa using h) with hok | ⟨e, he⟩
    · exact ⟨"no hits found in any record with feature",
        by simp [extract_coords_from_locus, hok]⟩
    · exact ⟨e, by simp [extract_coords_from_locus, he]⟩

/-- Invariant of the concatenation loop: the final genome extends the
accumulator, and every surviving cluster's recorded coordinate span
slices its own contig back out of the final genome. -/
theorem make_faux_genome_go_spec (nbuff : ℕ) (name : String) :
    ∀ (cl : List FauxCluster) (g : List Char) (cnt : ℕ),
      (∃ t, (make_faux_genome_go nbuff name g cnt cl).2.1 = g ++ t) ∧
      List.Forall₂ (fun clu clu2 =>
        clu.keep_contigs = true → clu.continue_iterating = true →
        ∃ s, clu2.global_start_coord = some s ∧
          clu2.global_end_coord = some (s + clu.contig.length) ∧
          s + clu.contig.length
              ≤ (make_faux_genome_go nbuff name g cnt cl).2.1.length ∧
          (((make_faux_genome_go nbuff name g cnt cl).2.1.drop s).take
              clu.contig.length) = clu.contig)
        cl (make_faux_genome_go nbuff name g cnt cl).1 := by
  intro cl
  induction cl with
  | nil =>
      intro g cnt
      exact ⟨⟨[], by simp [make_faux_genome_go]⟩, List.Forall₂.nil⟩
  | cons clu rest ih =>
      intro g cnt
      by_cases hskip : clu.keep_contigs = false ∨ clu.continue_iterating = false
      · have hgo : make_faux_genome_go nbuff name g cnt (clu :: rest)
            = (clu :: (make_faux_genome_go nbuff name g cnt rest).1,
               (make_faux_genome_go nbuff name g cnt rest).2) := by
          simp [make_faux_genome_go, hskip]
        rw [hgo]
        obtain ⟨⟨t, ht⟩, hfa⟩ := ih g cnt
        refine ⟨⟨t, by simpa using ht⟩, ?_⟩
        refine List.Forall₂.cons ?_ ?_
        · intro hk hc
          rcases hskip with hcase | hcase
          · rw [hk] at hcase; cases hcase
          · rw [hc] at hcase; cases hcase
        · simpa using hfa
      · push_neg at hskip
        obtain ⟨hk, hc⟩ := hskip
        rw [Bool.ne_false_iff] at hk hc
        have hgo : make_faux_genome_go nbuff name g cnt (clu :: rest)
            = ({ clu with
                  global_start_coord := some (g.length + nbuff)
                  global_end_coord :=
                    some ((g ++ (List.replicate nbuff 'N' ++
                      clu.contig)).length)
                  sequence_id := name }
                 :: (make_faux_genome_go nbuff name
                      (g ++ (List.replicate nbuff 'N' ++ clu.contig))
                      (cnt + 1) rest).1,
               (make_faux_genome_go nbuff name
                  (g ++ (List.replicate nbuff 'N' ++ clu.contig))
                  (cnt + 1) rest).2) := by
          simp [make_faux_genome_go, hk, hc]
        rw [hgo]
        obtain ⟨⟨t, ht⟩, hfa⟩ :=
          ih (g ++ (List.replicate nbuff 'N' ++ clu.contig)) (cnt + 1)
        have hshape : (make_faux_genome_go nbuff name
              (g ++ (List.replicate nbuff 'N' ++ clu.contig))
              (cnt + 1) rest).2.1
            = (g ++ List.replicate nbuff 'N') ++ (clu.contig ++ t) := by
          rw [ht]
          simp [List.append_assoc]
        constructor
        · exact ⟨List.replicate nbuff 'N' ++ clu.contig ++ t,
            by rw [hshape]; simp [List.append_assoc]⟩
        · refine List.Forall₂.cons ?_ (by simpa using hfa)
          intro _ _
          refine ⟨g.length + nbuff, rfl, ?_, ?_, ?_⟩
          · simp only []
            congr 1
            simp
            omega
          · rw [hshape]
            simp
            omega
          · rw [hshape,
              show g.length + nbuff = (g ++ List.replicate nbuff 'N').length
                by simp,
              List.drop_left, List.take_left]

/-- C3: after `make_faux_genome`, every surviving Region's recorded
global coordinates delimit exactly its contig inside the new genome:
the slice that `prepare_next_mapping` performs between them on the next
iteration returns that contig (the N-buffers lie outside the span),
and the new coordinates overwrite the previous ones. -/
theorem C3_faux_genome_coords (cluster_list : List FauxCluster)
    (new_seq_name : String) (nbuff : ℕ) (clusters2 : List FauxCluster)
    (G : List Char)
    (h : make_faux_genome cluster_list new_seq_name nbuff
          = some (clusters2, G)) :
    List.Forall₂ (fun clu clu2 =>
      clu.keep_contigs = true → clu.continue_iterating = true →
      ∃ s, clu2.global_start_coord = some s ∧
        clu2.global_end_coord = some (s + clu.contig.length) ∧
        prepare_next_mapping_extract G clu2.global_start_coord
            clu2.global_end_coord = .ok clu.contig)
      cluster_list clusters2 := by
  simp only [make_faux_genome] at h
  by_cases h0 : cluster_list.length = 0
  · rw [if_pos h0] at h; cases h
  · rw [if_neg h0] at h
    by_cases hcnt : (make_faux_genome_go nbuff new_seq_name [] 0
        cluster_list).2.2 = 0
    · rw [if_pos hcnt] at h; cases h
    · rw [if_neg hcnt] at h
      injection h with h
      injection h with hcl hG
      obtain ⟨-, hfa⟩ :=
        make_faux_genome_go_spec nbuff new_seq_name cluster_list [] 0
      rw [hcl] at hfa
      refine hfa.imp ?_
      intro clu clu2 hab hk hc
      obtain ⟨s, h1, h2, h3, h4⟩ := hab hk hc
      refine ⟨s, h1, h2, ?_⟩
      rw [h1, h2]
      show Except.ok (((G.drop s).take (s + clu.contig.length - s)))
          = Except.ok clu.contig
      rw [show s + clu.contig.length - s = clu.contig.length by omega]
      rw [← hG, slice_append_of_le _ _ _ _ h3, h4]

/-- C3 witness: two surviving clusters with contigs `AB` and `DEF` and
one excluded cluster, buffer length 2: the recorded spans `[2, 4)` and
`[6, 9)` slice exactly the contigs back out of `NNABNNDEFNN`. -/
theorem C3_faux_genome_coords_witness :
    List.Forall₂ (fun (clu clu2 : FauxCluster) =>
      clu.keep_contigs = true → clu.continue_iterating = true →
      ∃ s, clu2.global_start_coord = some s ∧
        clu2.global_end_coord = some (s + clu.contig.length) ∧
        prepare_next_mapping_extract "NNABNNDEFNN".toList
            clu2.global_start_coord clu2.global_end_coord
          = .ok clu.contig)
      [⟨true, true, "AB".toList, none, none, "c1"⟩,
       ⟨false, true, "C".toList, none, none, "c2"⟩,
       ⟨true, true, "DEF".toList, none, none, "c3"⟩]
      [⟨true, true, "AB".toList, some 2, some 4, "faux"⟩,
       ⟨false, true, "C".toList, none, none, "c2"⟩,
       ⟨true, true, "DEF".toList, some 6, some 9, "faux"⟩] :=
  C3_faux_genome_coords
    [⟨true, true, "AB".toList, none, none, "c1"⟩,
     ⟨false, true, "C".toList, none, none, "c2"⟩,
     ⟨true, true, "DEF".toList, none, none, "c3"⟩] "faux" 2
    [⟨true, true, "AB".toList, some 2, some 4, "faux"⟩,
     ⟨false, true, "C".toList, none, none, "c2"⟩,
     ⟨true, true, "DEF".toList, some 6, some 9, "faux"⟩]
    "NNABNNDEFNN".toList (by rfl)

/-- The loop never consumes fuel once the iteration counter exceeds the
cap: it exits to finalization immediately. -/
theorem iteration_loop_done (codes : ℕ → ℕ → ℕ) (K : ℕ) :
    ∀ (fuel it : ℕ) (clusters : List ClusterFlags), ¬ it ≤ K →
      iteration_loop codes K fuel it clusters = .finalizing it := by
  intro fuel it clusters h
  cases fuel <;> simp only [iteration_loop] <;> rw [if_neg h]

/-- With fuel covering the remaining passes the loop never exhausts it:
`this_iteration` strictly increases on every pass. -/
theorem iteration_loop_no_fuel_exhaustion (codes : ℕ → ℕ → ℕ) (K : ℕ) :
    ∀ (fuel it : ℕ) (clusters : List ClusterFlags),
      K + 1 ≤ fuel + it →
      iteration_loop codes K fuel it clusters ≠ .outOfFuel := by
  intro fuel
  induction fuel with
  | zero =>
      intro it clusters h
      simp only [iteration_loop]
      rw [if_neg (by omega)]
      exact fun hcon => LoopOutcome.noConfusion hcon
  | succ fuel ih =>
      intro it clusters h
      simp only [iteration_loop]
      by_cases hit : it ≤ K
      · rw [if_pos hit]
        by_cases hact : (clusters.filter isActive).length = 0
        · rw [if_pos hact]
          exact fun hcon => LoopOutcome.noConfusion hcon
        · rw [if_neg hact]
          cases hev : eval_pass codes it 0 clusters with
          | error e => exact fun hcon => LoopOutcome.noConfusion hcon
          | ok clusters2 =>
              show (if (clusters2.filter isActive).length ≠ 0 then
                      iteration_loop codes K fuel (it + 1) clusters2
                    else iteration_loop codes K fuel (K + 1 + 1) clusters2)
                  ≠ LoopOutcome.outOfFuel
              by_cases h2 : (clusters2.filter isActive).length ≠ 0
              · rw [if_pos h2]
                exact ih (it + 1) clusters2 (by omega)
              · rw [if_neg h2]
                exact ih (K + 1 + 1) clusters2 (by omega)
      · rw [if_neg hit]
        exact fun hcon => LoopOutcome.noConfusion hcon

/-- When every selected cluster receives code 2, the evaluation pass
succeeds and clears both flags on every cluster. -/
theorem eval_pass_code2 (codes : ℕ → ℕ → ℕ) (it : ℕ)
    (hcodes : ∀ i, codes it i = 2) :
    ∀ (i : ℕ) (cl : List ClusterFlags),
      (∀ c ∈ cl, isActive c = true) →
      eval_pass codes it i cl
        = .ok (cl.map (fun c =>
            (⟨false, false, c.copied_to_final⟩ : ClusterFlags))) := by
  intro i cl
  induction cl generalizing i with
  | nil => intro _; rfl
  | cons c rest ih =>
      intro h
      have hc : isActive c = true := h c (List.mem_cons_self c rest)
      simp only [eval_pass, hc, if_true, hcodes i]
      rw [show parse_subassembly_return_code 2 c
            = .ok (⟨false, false, c.copied_to_final⟩ : ClusterFlags)
          from rfl]
      rw [ih (i + 1) (fun d hd => h d (List.mem_cons_of_mem c hd))]
      simp

/-- C6 counterexample: one Region, cap 3, code 2 assigned on the very
first pass: the loop exits directly to finalization (final counter
K+2 = 5); the fatal no-active-regions exit never fires — contrary to
the claim that it fires on the next pass. -/
theorem C6_fatal_does_not_fire :
    iteration_loop (fun _ _ => 2) 3 5 0 [⟨true, true, false⟩]
        = .finalizing 5 ∧
    ∀ i, iteration_loop (fun _ _ => 2) 3 5 0 [⟨true, true, false⟩]
        ≠ .fatalNoActive i := by
  have hres : iteration_loop (fun _ _ => 2) 3 5 0 [⟨true, true, false⟩]
      = .finalizing 5 := by rfl
  exact ⟨hres, fun i hcon => by
    rw [hres] at hcon
    exact LoopOutcome.noConfusion hcon⟩

/-- C6 amended: for any finite cap K the loop terminates — K+1 passes
of fuel are never exhausted, so finalization (or a fatal exit) is
reached within K+1 passes — and when every Region receives code 2 on
the first pass, the active set empties, the controller jumps the
iteration counter to K+2 and proceeds to finalization on that same
pass, without the fatal no-active-regions exit firing. -/
theorem C6_loop_terminates (codes : ℕ → ℕ → ℕ) (K fuel : ℕ)
    (clusters : List ClusterFlags) (hfuel : K + 1 ≤ fuel) :
    iteration_loop codes K fuel 0 clusters ≠ .outOfFuel ∧
    (clusters ≠ [] →
      (∀ c ∈ clusters, isActive c = true) →
      (∀ i, codes 0 i = 2) →
      iteration_loop codes K fuel 0 clusters = .finalizing (K + 2)) := by
  constructor
  · exact iteration_loop_no_fuel_exhaustion codes K fuel 0 clusters (by omega)
  · intro hne hall hcodes
    obtain ⟨fuel, rfl⟩ : ∃ f, fuel = f + 1 := ⟨fuel - 1, by omega⟩
    have hfilter : clusters.filter isActive = clusters :=
      List.filter_eq_self.mpr hall
    have hfilter2 : ((clusters.map (fun c =>
        (⟨false, false, c.copied_to_final⟩ : ClusterFlags))).filter
          isActive).length = 0 := by
      rw [List.length_eq_zero]
      rw [List.filter_eq_nil_iff]
      intro a ha
      simp only [List.mem_map] at ha
      obtain ⟨c, -, rfl⟩ := ha
      simp [isActive]
    have hstep : iteration_loop codes K (fuel + 1) 0 clusters
        = iteration_loop codes K fuel (K + 1 + 1)
            (clusters.map (fun c =>
              (⟨false, false, c.copied_to_final⟩ : ClusterFlags))) := by
      simp only [iteration_loop]
      rw [if_pos (by omega : (0 : ℕ) ≤ K)]
      rw [if_neg (by rw [hfilter]; simpa using hne)]
      rw [eval_pass_code2 codes 0 hcodes 0 clusters hall]
      show (if ((clusters.map (fun c =>
              (⟨false, false, c.copied_to_final⟩ : ClusterFlags))).filter
                isActive).length ≠ 0 then
              iteration_loop codes K fuel (0 + 1) _
            else iteration_loop codes K fuel (K + 1 + 1) _) = _
      rw [if_neg (by simpa using hfilter2)]
    rw [hstep, iteration_loop_done codes K fuel (K + 1 + 1) _ (by omega)]

/-- C6 witness: cap 1, one healthy Region assigned code 2 on the first
pass: within the fuel bound the loop reaches finalization with final
counter 3. -/
theorem C6_loop_terminates_witness :
    iteration_loop (fun _ _ => 2) 1 2 0 [⟨true, true, false⟩]
        ≠ .outOfFuel ∧
    iteration_loop (fun _ _ => 2) 1 2 0 [⟨true, true, false⟩]
        = .finalizing 3 :=
  ⟨(C6_loop_terminates (fun _ _ => 2) 1 2 [⟨true, true, false⟩]
      (by omega)).1,
   (C6_loop_terminates (fun _ _ => 2) 1 2 [⟨true, true, false⟩]
      (by omega)).2 (by decide) (by decide) (fun i => rfl)⟩

/-- C9 witness: a Region line without a locus-tag field is a parse
error, and a Region with an empty matching-feature set is rejected by
coordinate extraction. -/
theorem C9_region_catalog_error_cases_witness :
    (parse_loci_line (none, [], 0) "chrom1".toList
        = .error ("error parsing line: " ++ String.mk "chrom1".toList)) ∧
    (∃ e, extract_coords_from_locus exampleClusterAB "rRNA" []
        = .error e) :=
  ⟨C9_region_catalog_error_cases.2.1 (none, [], 0) "chrom1".toList
      (by decide) (by decide) (by decide) (by decide),
   C9_region_catalog_error_cases.2.2.2.2 exampleClusterAB "rRNA" []
      (by simp)⟩

end RiboSeed
